import Mathlib

/-!
Shallow embedding of the `HttpClient` request/response layer of
`paperswithcode/http.py`, together with theorems checking the
natural-language specification against it.

The class `HttpClient` becomes a structure; each mutable attribute of the
Python object is a field, and `request` is a function from the old state to
the new state and an outcome.  The HTTP transport (the `httpx` calls) is an
external collaborator: it is passed in as a function from the headers and
timeout the client sends to a `TransportResult` (a received response, or one
of the transport-level exceptions that the `try`/`except` block of `request`
distinguishes).  Response bodies are JSON values; the external JSON parse
performed by `response.json()` is a field of `Response` holding either the
parsed value or the exception description it raises with.
-/

set_option autoImplicit false

namespace PapersWithCode

/-- JSON values, the shape of parsed response bodies. -/
inductive Json where
  | null
  | bool (b : Bool)
  | num (n : Int)
  | str (s : String)
  | arr (elems : List Json)
  | obj (fields : List (String × Json))

/-- Python values relevant to the client code: the rate-limit check of
`request` compares a header value (a `str`) against the int literal `0`. -/
inductive PyVal where
  | int (n : Int)
  | str (s : String)

/-- Python equality (`==`) on such values: equal ints, equal strings, and
`False` across types (`str == int` is always `False`, no coercion). -/
def pyEq : PyVal → PyVal → Bool
  | PyVal.int a, PyVal.int b => a = b
  | PyVal.str a, PyVal.str b => a = b
  | _, _ => false

/-- Python `str.strip()`: remove leading and trailing whitespace. -/
def pyStrip (s : String) : String :=
  ⟨((s.data.dropWhile Char.isWhitespace).reverse.dropWhile Char.isWhitespace).reverse⟩

/-- Python `str.lower()`: lower-case each character (the method names the
client compares are ASCII). -/
def pyLower (s : String) : String :=
  ⟨s.data.map Char.toLower⟩

/-- Lookup in a Python-dict-like association list: `d.get(k)`; first
matching key wins (a genuine dict has distinct keys). -/
def dictGet {κ : Type} {α : Type} [DecidableEq κ] (d : List (κ × α)) (k : κ) : Option α :=
  match d with
  | [] => none
  | (k', v) :: rest => if k' = k then some v else dictGet rest k

/-- Python dict assignment `d[k] = v`: update the entry in place if the key
is present, append it otherwise (insertion order preserved). -/
def dictSet {α : Type} (d : List (String × α)) (k : String) (v : α) : List (String × α) :=
  match d with
  | [] => [(k, v)]
  | (k', w) :: rest => if k' = k then (k, v) :: rest else (k', w) :: dictSet rest k v

/-- Python dict merge `\x7b**a, **b\x7d`: entries of `b` written over `a`. -/
def dictMerge {α : Type} (a b : List (String × α)) : List (String × α) :=
  b.foldl (fun acc p => dictSet acc p.1 p.2) a

/-- The `AuthorizationMethod` enum of `http.py`. -/
inductive AuthorizationMethod where
  | basic
  | token
  | jwt
  deriving DecidableEq

/-- The `.value` string of each `AuthorizationMethod` member. -/
def AuthorizationMethod.value : AuthorizationMethod → String
  | AuthorizationMethod.basic => "Basic"
  | AuthorizationMethod.token => "Token"
  | AuthorizationMethod.jwt => "JWT"

/-- A received HTTP response as the classifier observes it: status code,
headers, raw text, and the result of the external JSON parse that
`response.json()` performs (`Except.error` carries the repr of the exception
the parser raises). -/
structure Response where
  status : Nat
  headers : List (String × String)
  text : String
  jsonResult : Except String Json

/-- Modelled from the spec: the repository's `errors` module is not under
`src/`; per the spec's error taxonomy (§7) it provides `HttpClientError`
(message, optional status code, optional response), `HttpClientTimeout`,
and `HttpRateLimitExceeded` (response plus the four rate-limit header
values), all ordinary exceptions, so a bare `except Exception` catches a
raised `HttpClientError`.  Messages are arbitrary Python values, hence
`Json`-typed. -/
inductive PwcError where
  | httpClientError (message : Json) (statusCode : Option Nat) (response : Option Response)
  | httpClientTimeout
  | httpRateLimitExceeded (response : Response) (limit remaining reset retry : String)

/-- Modelled from the spec: the `errors` module's repr of the
`HttpClientError` raised for an unsupported method, as interpolated by the
catch-all handler's `f"Unknown error. \x7be!r\x7d"`. -/
def unsupportedMethodRepr (method : String) : String :=
  "HttpClientError('Unsupported method: " ++ method ++ "')"

/-- What the underlying `httpx` transport does for one dispatched call:
return a response, or raise one of the exception classes the `except`
clauses of `request` distinguish. -/
inductive TransportResult where
  | response (r : Response)
  | timeoutExc
  | connectionError
  | otherExc (descr : String)

/-- Outcome of one `request` call: a returned payload, a raised error from
the `errors` module, or a raw Python `KeyError` escaping the classifier
(the rate-limit header lookups at lines 153 to 155 run outside the
`try` block). -/
inductive RequestOutcome where
  | ok (payload : Json)
  | err (e : PwcError)
  | pyKeyError (key : String)

/-- The `HttpClient` object's state: the four constructor arguments, the
default headers set in `__init__`, and the `response` attribute that
`request` assigns. -/
structure HttpClient where
  url : String
  token : String
  authorization_method : AuthorizationMethod
  timeout : Rat
  headers : List (String × String)
  response : Option Response

/-- `HttpClient.__init__`: store the configuration, set the default headers
to `Content-Type: application/json`, and clear `response`. -/
def HttpClient.init (url : String) (token : String)
    (authorization_method : AuthorizationMethod) (timeout : Rat) : HttpClient :=
  { url := url
    token := token
    authorization_method := authorization_method
    timeout := timeout
    headers := [("Content-Type", "application/json")]
    response := none }

/-- The `ERRORS` table of `HttpClient`: known status codes and their canned
messages, exactly as written in the source. -/
def ERRORS : List (Nat × String) :=
  [(401, "Unauthorized"),
   (403, "Forbidden!"),
   (404, "Not found."),
   (409, "Conflict"),
   (429, "Under pressure! (Too many requests)"),
   (500, "You broke it!!!"),
   (502, "Server not reachable."),
   (503, "Server under maintenance.")]

/-- Line 86 of `request`: `headers = \x7b**self.headers, **(headers or \x7b\x7d)\x7d`. -/
def HttpClient.mergedHeaders (c : HttpClient)
    (headers : Option (List (String × String))) : List (String × String) :=
  dictMerge c.headers (headers.getD [])

/-- Lines 86 to 90 of `request`: merge the caller headers over the defaults,
then set `Authorization` to `f"\x7bscheme\x7d \x7btoken\x7d"` when the stripped token is
non-empty. -/
def HttpClient.effectiveHeaders (c : HttpClient)
    (headers : Option (List (String × String))) : List (String × String) :=
  let hs := c.mergedHeaders headers
  if pyStrip c.token ≠ "" then
    dictSet hs "Authorization" (c.authorization_method.value ++ " " ++ c.token)
  else
    hs

/-- Line 92 of `request`: `timeout = timeout or self.timeout`; a `None` or
falsy (zero) override falls back to the configured default. -/
def HttpClient.effectiveTimeout (c : HttpClient) (timeout : Option Rat) : Rat :=
  match timeout with
  | none => c.timeout
  | some t => if t = 0 then c.timeout else t

/-- The method dispatch of lines 96 to 125: `method.lower()` is compared
against the four supported verbs. -/
def supportedMethod (method : String) : Bool :=
  pyLower method = "get" || pyLower method = "patch" ||
    pyLower method = "post" || pyLower method = "delete"

/-- `response.json()[k]`: `some` value when the body parses to a JSON object
holding the key; any failure (parse exception, non-object, missing key)
raises and is caught by the callers' `except` blocks, hence `none`. -/
def Response.extractField (r : Response) (k : String) : Option Json :=
  match r.jsonResult with
  | Except.ok (Json.obj fields) => dictGet fields k
  | _ => none

/-- Lines 166 to 183 of `request`: the known-status table lookup, the
status-400 special case extracting the body's `error` field, and the
generic fallback extracting the body's `message` field. -/
def classifyStatus (r : Response) : RequestOutcome :=
  match dictGet ERRORS r.status with
  | some message =>
      RequestOutcome.err (PwcError.httpClientError (Json.str message) none (some r))
  | none =>
      if r.status = 400 then
        RequestOutcome.err (PwcError.httpClientError
          ((r.extractField "error").getD (Json.str "Bad Request.")) none (some r))
      else
        RequestOutcome.err (PwcError.httpClientError
          ((r.extractField "message").getD (Json.str "Unknown error.")) none (some r))

/-- Lines 141 to 183 of `request`: classification of a received response.
A 2xx status returns the parsed body (empty body short-circuits to `\x7b\x7d`);
otherwise the rate-limit block runs first: if `X-Ratelimit-Limit` is
present, the other three rate-limit headers are read with `headers[...]`
(a raw `KeyError` when absent, these lines are outside the `try`), and the
remaining value — a `str` — is compared with `== 0`; only then the status
classification of `classifyStatus`. -/
def classifyResponse (r : Response) : RequestOutcome :=
  if 200 ≤ r.status ∧ r.status ≤ 299 then
    if r.text = "" then
      RequestOutcome.ok (Json.obj [])
    else
      match r.jsonResult with
      | Except.ok v => RequestOutcome.ok v
      | Except.error e =>
          RequestOutcome.err (PwcError.httpClientError
            (Json.str ("Error while parsing server response: " ++ e)) none (some r))
  else
    match dictGet r.headers "X-Ratelimit-Limit" with
    | some limit =>
        match dictGet r.headers "X-Ratelimit-Remaining" with
        | none => RequestOutcome.pyKeyError "X-Ratelimit-Remaining"
        | some remaining =>
            match dictGet r.headers "X-Ratelimit-Reset" with
            | none => RequestOutcome.pyKeyError "X-Ratelimit-Reset"
            | some reset =>
                match dictGet r.headers "X-Ratelimit-Retry" with
                | none => RequestOutcome.pyKeyError "X-Ratelimit-Retry"
                | some retry =>
                    if pyEq (PyVal.str remaining) (PyVal.int 0) then
                      RequestOutcome.err
                        (PwcError.httpRateLimitExceeded r limit remaining reset retry)
                    else
                      classifyStatus r
    | none => classifyStatus r

/-- `HttpClient.request`: compute the effective headers and timeout, reject
an unsupported method (the raised 405 `HttpClientError` is caught by the
`except Exception` clause of the same `try` and re-wrapped as an
`Unknown error.`), otherwise dispatch to the transport, map the transport
exceptions to their errors, store a received response in `self.response`,
and classify it. -/
def HttpClient.request (c : HttpClient) (method : String)
    (headers : Option (List (String × String))) (timeout : Option Rat)
    (transport : List (String × String) → Rat → TransportResult) :
    HttpClient × RequestOutcome :=
  let hs := c.effectiveHeaders headers
  let tmo := c.effectiveTimeout timeout
  if supportedMethod method then
    match transport hs tmo with
    | TransportResult.response r => ({ c with response := some r }, classifyResponse r)
    | TransportResult.timeoutExc => (c, RequestOutcome.err PwcError.httpClientTimeout)
    | TransportResult.connectionError =>
        (c, RequestOutcome.err
          (PwcError.httpClientError (Json.str "Server not reachable.") none none))
    | TransportResult.otherExc d =>
        (c, RequestOutcome.err
          (PwcError.httpClientError (Json.str ("Unknown error. " ++ d)) none none))
  else
    (c, RequestOutcome.err
      (PwcError.httpClientError
        (Json.str ("Unknown error. " ++ unsupportedMethodRepr method)) none none))

/-- Base URL of the public API, used as the concrete configuration of the
closed test clients below. -/
def baseClient : HttpClient :=
  HttpClient.init "https://paperswithcode.com/api/v1/" "" AuthorizationMethod.jwt 10

/-- A 429 response whose rate-limit headers report an exhausted quota
(`X-Ratelimit-Remaining: 0`). -/
def r429 : Response :=
  { status := 429
    headers := [("X-Ratelimit-Limit", "100"), ("X-Ratelimit-Remaining", "0"),
                ("X-Ratelimit-Reset", "60"), ("X-Ratelimit-Retry", "1")]
    text := ""
    jsonResult := Except.error "JSONDecodeError" }

/-- A bare 500 response. -/
def r500 : Response :=
  { status := 500, headers := [], text := "", jsonResult := Except.error "JSONDecodeError" }

/-- A bare 404 response. -/
def r404 : Response :=
  { status := 404, headers := [], text := "", jsonResult := Except.error "JSONDecodeError" }

/-- A 400 response whose JSON body is `\x7b"error": "bad field"\x7d`. -/
def r400err : Response :=
  { status := 400
    headers := []
    text := "\x7b\"error\": \"bad field\"\x7d"
    jsonResult := Except.ok (Json.obj [("error", Json.str "bad field")]) }

/-- A 200 response with the JSON body `\x7b"x": 1\x7d`. -/
def rOk : Response :=
  { status := 200
    headers := []
    text := "\x7b\"x\": 1\x7d"
    jsonResult := Except.ok (Json.obj [("x", Json.num 1)]) }

/-- A 500 response carrying `X-Ratelimit-Limit` but none of the other three
rate-limit headers. -/
def r500limitOnly : Response :=
  { status := 500
    headers := [("X-Ratelimit-Limit", "100")]
    text := ""
    jsonResult := Except.error "JSONDecodeError" }

/-- A transport that always delivers the given response. -/
def constTransport (r : Response) : List (String × String) → Rat → TransportResult :=
  fun _ _ => TransportResult.response r

/-- A client configured with the token `"tok"` and the `Token` scheme. -/
def tokClient : HttpClient :=
  HttpClient.init "https://paperswithcode.com/api/v1/" "tok" AuthorizationMethod.token 10

theorem dictGet_dictSet_self {α : Type} (d : List (String × α)) (k : String) (v : α) :
    dictGet (dictSet d k v) k = some v := by
  induction d with
  | nil => simp [dictSet, dictGet]
  | cons p rest ih =>
    obtain ⟨k', w⟩ := p
    by_cases h : k' = k
    · simp [dictSet, h, dictGet]
    · simp [dictSet, h, dictGet, ih]

theorem dictGet_dictSet_ne {α : Type} (d : List (String × α)) (k k' : String) (v : α)
    (h : k' ≠ k) : dictGet (dictSet d k v) k' = dictGet d k' := by
  induction d with
  | nil =>
    simp only [dictSet, dictGet]
    rw [if_neg (Ne.symm h)]
  | cons p rest ih =>
    obtain ⟨k'', w⟩ := p
    by_cases hk : k'' = k
    · subst hk
      simp only [dictSet, if_pos rfl, dictGet]
      rw [if_neg (Ne.symm h), if_neg (Ne.symm h)]
    · simp only [dictSet, if_neg hk, dictGet]
      by_cases hk' : k'' = k'
      · rw [if_pos hk', if_pos hk']
      · rw [if_neg hk', if_neg hk', ih]

theorem dictGet_eq_none_of_not_mem {α : Type} (d : List (String × α)) (k : String)
    (h : k ∉ d.map Prod.fst) : dictGet d k = none := by
  induction d with
  | nil => rfl
  | cons p rest ih =>
    obtain ⟨k', w⟩ := p
    simp only [List.map_cons, List.mem_cons, not_or] at h
    simp only [dictGet]
    rw [if_neg (Ne.symm h.1)]
    exact ih h.2

theorem dictGet_dictMerge_none {α : Type} (a b : List (String × α)) (k : String)
    (h : dictGet b k = none) : dictGet (dictMerge a b) k = dictGet a k := by
  induction b generalizing a with
  | nil => rfl
  | cons p rest ih =>
    obtain ⟨k', w⟩ := p
    by_cases hk : k' = k
    · simp [dictGet, hk] at h
    · simp only [dictGet, if_neg hk] at h
      show dictGet (dictMerge (dictSet a k' w) rest) k = dictGet a k
      rw [ih _ h, dictGet_dictSet_ne _ _ _ _ (Ne.symm hk)]

theorem dictGet_dictMerge_some {α : Type} (a b : List (String × α)) (k : String) (v : α)
    (hnd : (b.map Prod.fst).Nodup) (h : dictGet b k = some v) :
    dictGet (dictMerge a b) k = some v := by
  induction b generalizing a with
  | nil => simp [dictGet] at h
  | cons p rest ih =>
    obtain ⟨k', w⟩ := p
    simp only [List.map_cons, List.nodup_cons] at hnd
    by_cases hk : k' = k
    · subst hk
      have hw : w = v := by simpa [dictGet] using h
      subst hw
      have hrest : dictGet rest k' = none :=
        dictGet_eq_none_of_not_mem _ _ hnd.1
      show dictGet (dictMerge (dictSet a k' w) rest) k' = some w
      rw [dictGet_dictMerge_none _ _ _ hrest, dictGet_dictSet_self]
    · simp only [dictGet, if_neg hk] at h
      show dictGet (dictMerge (dictSet a k' w) rest) k = some v
      exact ih _ hnd.2 h

theorem request_response_eq (c : HttpClient) (m : String)
    (hdrs : Option (List (String × String))) (tmo : Option Rat) (r : Response)
    (hm : supportedMethod m = true) :
    c.request m hdrs tmo (constTransport r) =
      ({ c with response := some r }, classifyResponse r) := by
  simp [HttpClient.request, hm, constTransport]

theorem classifyResponse_eq_classifyStatus (r : Response)
    (hstatus : ¬(200 ≤ r.status ∧ r.status ≤ 299))
    (hnopre : dictGet r.headers "X-Ratelimit-Limit" = none ∨
      ((dictGet r.headers "X-Ratelimit-Remaining").isSome ∧
       (dictGet r.headers "X-Ratelimit-Reset").isSome ∧
       (dictGet r.headers "X-Ratelimit-Retry").isSome)) :
    classifyResponse r = classifyStatus r := by
  unfold classifyResponse
  rw [if_neg hstatus]
  rcases hnopre with h | ⟨h1, h2, h3⟩
  · rw [h]
  · rcases Option.isSome_iff_exists.mp h1 with ⟨rem, hrem⟩
    rcases Option.isSome_iff_exists.mp h2 with ⟨res, hres⟩
    rcases Option.isSome_iff_exists.mp h3 with ⟨ret, hret⟩
    cases hlim : dictGet r.headers "X-Ratelimit-Limit" with
    | none => rfl
    | some l => simp [hlim, hrem, hres, hret, pyEq]

/-- C1: the claim says a non-2xx response with `X-Ratelimit-Limit` present
and `X-Ratelimit-Remaining` equal to zero makes `request` raise
`RateLimitExceeded` ahead of the known-status table.  The code compares the
header value, a `str`, with the int `0` (`remaining == 0`), which is always
`False` in Python, so on a 429 response with `X-Ratelimit-Remaining: 0` the
rate-limit branch never fires and the table's 429 error is raised
instead. -/
theorem c1_rate_limit_branch_never_fires :
    (baseClient.request "get" none none (constTransport r429)).2 =
      RequestOutcome.err (PwcError.httpClientError
        (Json.str "Under pressure! (Too many requests)") none (some r429)) := by
  rfl

/-- C2: the claim says an unsupported method raises `UnsupportedMethod`
(405) and not a wrapped `UnknownTransportError`.  The code raises the 405
`HttpClientError` inside the `try` block, whose final clause
`except Exception` catches it and re-raises
`HttpClientError(f"Unknown error. \x7be!r\x7d")` with no status code — the
generic wrapped kind.  No network call is attempted: the result is the same
for every transport. -/
theorem c2_put_wrapped_as_unknown_error :
    ∀ transport : List (String × String) → Rat → TransportResult,
      baseClient.request "put" none none transport =
        (baseClient, RequestOutcome.err (PwcError.httpClientError
          (Json.str "Unknown error. HttpClientError('Unsupported method: put')")
          none none)) := by
  intro transport
  rfl

/-- C8 (counterexample): the claim says `request` stores no response state
on the executor; the code assigns the received response to
`self.response`, so a call on a fresh client (whose `response` is `None`)
leaves the response behind. -/
theorem c8_counterexample_response_attribute_mutated :
    (baseClient.request "get" none none (constTransport rOk)).1.response = some rOk ∧
      baseClient.response = none ∧
      some rOk ≠ (none : Option Response) := by
  refine ⟨rfl, rfl, ?_⟩
  simp

/-- C8 (amended): every `request` call leaves the configuration (url,
token, authorization scheme, default timeout, default headers) unchanged
and produces exactly one outcome, but the executor's mutable `response`
attribute is overwritten with the received response (and is otherwise left
as it was). -/
theorem c8_request_preserves_config :
    ∀ (c : HttpClient) (m : String) (hdrs : Option (List (String × String)))
      (tmo : Option Rat) (transport : List (String × String) → Rat → TransportResult),
      ((c.request m hdrs tmo transport).1.url = c.url ∧
       (c.request m hdrs tmo transport).1.token = c.token ∧
       (c.request m hdrs tmo transport).1.authorization_method = c.authorization_method ∧
       (c.request m hdrs tmo transport).1.timeout = c.timeout ∧
       (c.request m hdrs tmo transport).1.headers = c.headers) ∧
      ((∃ p, (c.request m hdrs tmo transport).2 = RequestOutcome.ok p) ∨
       (∃ e, (c.request m hdrs tmo transport).2 = RequestOutcome.err e) ∨
       (∃ k, (c.request m hdrs tmo transport).2 = RequestOutcome.pyKeyError k)) ∧
      ((c.request m hdrs tmo transport).1.response = c.response ∨
       (∃ r, transport (c.effectiveHeaders hdrs) (c.effectiveTimeout tmo) =
           TransportResult.response r ∧
         (c.request m hdrs tmo transport).1.response = some r)) := by
  intro c m hdrs tmo transport
  by_cases hm : supportedMethod m = true
  · cases htr : transport (c.effectiveHeaders hdrs) (c.effectiveTimeout tmo) with
    | response r =>
      have heq : c.request m hdrs tmo transport =
          ({ c with response := some r }, classifyResponse r) := by
        simp [HttpClient.request, hm, htr]
      rw [heq]
      refine ⟨⟨rfl, rfl, rfl, rfl, rfl⟩, ?_, Or.inr ⟨r, rfl, rfl⟩⟩
      cases hcl : classifyResponse r with
      | ok p => exact Or.inl ⟨p, rfl⟩
      | err e => exact Or.inr (Or.inl ⟨e, rfl⟩)
      | pyKeyError k => exact Or.inr (Or.inr ⟨k, rfl⟩)
    | timeoutExc =>
      have heq : c.request m hdrs tmo transport =
          (c, RequestOutcome.err PwcError.httpClientTimeout) := by
        simp [HttpClient.request, hm, htr]
      rw [heq]
      exact ⟨⟨rfl, rfl, rfl, rfl, rfl⟩, Or.inr (Or.inl ⟨_, rfl⟩), Or.inl rfl⟩
    | connectionError =>
      have heq : c.request m hdrs tmo transport =
          (c, RequestOutcome.err
            (PwcError.httpClientError (Json.str "Server not reachable.") none none)) := by
        simp [HttpClient.request, hm, htr]
      rw [heq]
      exact ⟨⟨rfl, rfl, rfl, rfl, rfl⟩, Or.inr (Or.inl ⟨_, rfl⟩), Or.inl rfl⟩
    | otherExc d =>
      have heq : c.request m hdrs tmo transport =
          (c, RequestOutcome.err
            (PwcError.httpClientError (Json.str ("Unknown error. " ++ d)) none none)) := by
        simp [HttpClient.request, hm, htr]
      rw [heq]
      exact ⟨⟨rfl, rfl, rfl, rfl, rfl⟩, Or.inr (Or.inl ⟨_, rfl⟩), Or.inl rfl⟩
  · have heq : c.request m hdrs tmo transport =
        (c, RequestOutcome.err
          (PwcError.httpClientError
            (Json.str ("Unknown error. " ++ unsupportedMethodRepr m)) none none)) := by
      simp [HttpClient.request, hm]
    rw [heq]
    exact ⟨⟨rfl, rfl, rfl, rfl, rfl⟩, Or.inr (Or.inl ⟨_, rfl⟩), Or.inl rfl⟩

/-- C9 (counterexample): the claim says only a strictly positive timeout
override replaces the default; an override of `-1` is truthy in Python, so
`timeout or self.timeout` keeps `-1`, which is not strictly positive and
differs from the default of 10. -/
theorem c9_counterexample_negative_override_replaces_default :
    baseClient.effectiveTimeout (some (-1)) = -1 ∧
      ¬(0 < (-1 : Rat)) ∧ (-1 : Rat) ≠ baseClient.timeout := by
  refine ⟨?_, by norm_num, ?_⟩
  · simp [HttpClient.effectiveTimeout]
  · show (-1 : Rat) ≠ 10
    norm_num

/-- C9 (amended): an omitted or zero (falsy) timeout override falls back to
the configured default; every nonzero override — negative ones included —
replaces the default. -/
theorem c9_timeout_fallback (c : HttpClient) (t : Rat) :
    c.effectiveTimeout none = c.timeout ∧
      c.effectiveTimeout (some 0) = c.timeout ∧
      (t ≠ 0 → c.effectiveTimeout (some t) = t) := by
  refine ⟨rfl, ?_, ?_⟩
  · simp [HttpClient.effectiveTimeout]
  · intro ht
    simp [HttpClient.effectiveTimeout, ht]

/-- Witness for the amended C9 theorem at the concrete override 5. -/
theorem c9_timeout_fallback_witness :
    (5 : Rat) ≠ 0 ∧ baseClient.effectiveTimeout (some 5) = 5 :=
  ⟨by norm_num, (c9_timeout_fallback baseClient 5).2.2 (by norm_num)⟩

/-- C3 (counterexample): the claim lists the table's message for status 500
as "Internal error"; the table of `http.py` maps 500 to "You broke
it!!!". -/
theorem c3_counterexample_table_messages_differ :
    (baseClient.request "get" none none (constTransport r500)).2 =
      RequestOutcome.err (PwcError.httpClientError
        (Json.str "You broke it!!!") none (some r500)) ∧
      Json.str "You broke it!!!" ≠ Json.str "Internal error" := by
  refine ⟨rfl, ?_⟩
  simp

/-- C3 (amended): for a non-2xx response not preempted by the rate-limit
block whose status is a key of the `ERRORS` table, `request` raises
`HttpClientError` carrying the response and the table's own message — that
is, 401 Unauthorized, 403 Forbidden!, 404 Not found., 409 Conflict, 429
Under pressure! (Too many requests), 500 You broke it!!!, 502 Server not
reachable., 503 Server under maintenance. -/
theorem c3_known_status_table (c : HttpClient) (m : String)
    (hdrs : Option (List (String × String))) (tmo : Option Rat) (r : Response)
    (msg : String)
    (hm : supportedMethod m = true)
    (hstatus : ¬(200 ≤ r.status ∧ r.status ≤ 299))
    (hnopre : dictGet r.headers "X-Ratelimit-Limit" = none ∨
      ((dictGet r.headers "X-Ratelimit-Remaining").isSome ∧
       (dictGet r.headers "X-Ratelimit-Reset").isSome ∧
       (dictGet r.headers "X-Ratelimit-Retry").isSome))
    (htbl : dictGet ERRORS r.status = some msg) :
    (c.request m hdrs tmo (constTransport r)).2 =
      RequestOutcome.err (PwcError.httpClientError (Json.str msg) none (some r)) := by
  rw [request_response_eq c m hdrs tmo r hm]
  show classifyResponse r = _
  rw [classifyResponse_eq_classifyStatus r hstatus hnopre]
  unfold classifyStatus
  rw [htbl]

/-- Witness for the amended C3 theorem: a bare 404 response yields the
table's "Not found." error. -/
theorem c3_known_status_table_witness :
    (baseClient.request "get" none none (constTransport r404)).2 =
      RequestOutcome.err (PwcError.httpClientError
        (Json.str "Not found.") none (some r404)) :=
  c3_known_status_table baseClient "get" none none r404 "Not found." rfl (by decide)
    (Or.inl rfl) rfl

/-- C4: for a 2xx response, an empty body returns the empty mapping, a body
whose JSON parse succeeds returns the parsed value, and a non-empty body
whose parse fails raises the parse error carrying the raw response. -/
theorem c4_success_body_handling (c : HttpClient) (m : String)
    (hdrs : Option (List (String × String))) (tmo : Option Rat) (r : Response)
    (hm : supportedMethod m = true)
    (h2xx : 200 ≤ r.status ∧ r.status ≤ 299) :
    (r.text = "" →
      (c.request m hdrs tmo (constTransport r)).2 = RequestOutcome.ok (Json.obj [])) ∧
    (∀ v, r.text ≠ "" → r.jsonResult = Except.ok v →
      (c.request m hdrs tmo (constTransport r)).2 = RequestOutcome.ok v) ∧
    (∀ d, r.text ≠ "" → r.jsonResult = Except.error d →
      (c.request m hdrs tmo (constTransport r)).2 =
        RequestOutcome.err (PwcError.httpClientError
          (Json.str ("Error while parsing server response: " ++ d)) none (some r))) := by
  rw [request_response_eq c m hdrs tmo r hm]
  refine ⟨?_, ?_, ?_⟩
  · intro ht
    show classifyResponse r = _
    unfold classifyResponse
    rw [if_pos h2xx, if_pos ht]
  · intro v ht hj
    show classifyResponse r = _
    unfold classifyResponse
    rw [if_pos h2xx, if_neg ht, hj]
  · intro d ht hj
    show classifyResponse r = _
    unfold classifyResponse
    rw [if_pos h2xx, if_neg ht, hj]

/-- Witness for the C4 theorem: a 200 response with the valid JSON body
`\x7b"x": 1\x7d` returns the parsed mapping. -/
theorem c4_success_body_handling_witness :
    (baseClient.request "get" none none (constTransport rOk)).2 =
      RequestOutcome.ok (Json.obj [("x", Json.num 1)]) :=
  (c4_success_body_handling baseClient "get" none none rOk rfl (by decide)).2.1
    (Json.obj [("x", Json.num 1)]) (by decide) rfl

/-- C5: when the stripped token is non-empty, the effective headers carry
`Authorization` with the value `"<scheme> <token>"` built from the
configured authorization method's literal string and the (untrimmed)
token; when the stripped token is empty, the injection step leaves the
merged headers untouched. -/
theorem c5_authorization_header (c : HttpClient)
    (hdrs : Option (List (String × String))) :
    (pyStrip c.token ≠ "" →
      dictGet (c.effectiveHeaders hdrs) "Authorization" =
        some (c.authorization_method.value ++ " " ++ c.token)) ∧
    (pyStrip c.token = "" → c.effectiveHeaders hdrs = c.mergedHeaders hdrs) := by
  constructor
  · intro h
    simp only [HttpClient.effectiveHeaders]
    rw [if_pos h]
    exact dictGet_dictSet_self _ _ _
  · intro h
    simp only [HttpClient.effectiveHeaders]
    rw [if_neg (fun hne => hne h)]

/-- Witness for the C5 theorem: a client with token `"tok"` and the `Token`
scheme sends `Authorization: Token tok`. -/
theorem c5_authorization_header_witness :
    pyStrip "tok" ≠ "" ∧
      dictGet (tokClient.effectiveHeaders none) "Authorization" = some "Token tok" :=
  ⟨by decide, (c5_authorization_header tokClient none).1 (by decide)⟩

/-- C6: for a non-2xx response not preempted by the rate-limit block and
not in the `ERRORS` table, status 400 raises `HttpClientError` with the
body's `error` field (or "Bad Request." when extraction fails), and every
other status raises `HttpClientError` with the body's `message` field (or
"Unknown error." when extraction fails), both carrying the response. -/
theorem c6_bad_request_and_generic_fallback (c : HttpClient) (m : String)
    (hdrs : Option (List (String × String))) (tmo : Option Rat) (r : Response)
    (hm : supportedMethod m = true)
    (hstatus : ¬(200 ≤ r.status ∧ r.status ≤ 299))
    (hnopre : dictGet r.headers "X-Ratelimit-Limit" = none ∨
      ((dictGet r.headers "X-Ratelimit-Remaining").isSome ∧
       (dictGet r.headers "X-Ratelimit-Reset").isSome ∧
       (dictGet r.headers "X-Ratelimit-Retry").isSome))
    (htbl : dictGet ERRORS r.status = none) :
    (r.status = 400 →
      (c.request m hdrs tmo (constTransport r)).2 =
        RequestOutcome.err (PwcError.httpClientError
          ((r.extractField "error").getD (Json.str "Bad Request.")) none (some r))) ∧
    (r.status ≠ 400 →
      (c.request m hdrs tmo (constTransport r)).2 =
        RequestOutcome.err (PwcError.httpClientError
          ((r.extractField "message").getD (Json.str "Unknown error.")) none (some r))) := by
  rw [request_response_eq c m hdrs tmo r hm]
  constructor
  · intro h400
    show classifyResponse r = _
    rw [classifyResponse_eq_classifyStatus r hstatus hnopre]
    unfold classifyStatus
    rw [htbl, if_pos h400]
  · intro h400
    show classifyResponse r = _
    rw [classifyResponse_eq_classifyStatus r hstatus hnopre]
    unfold classifyStatus
    rw [htbl, if_neg h400]

/-- Witness for the C6 theorem: a 400 response with body
`\x7b"error": "bad field"\x7d` raises the bad-request error with message
"bad field". -/
theorem c6_bad_request_and_generic_fallback_witness :
    (baseClient.request "get" none none (constTransport r400err)).2 =
      RequestOutcome.err (PwcError.httpClientError
        (Json.str "bad field") none (some r400err)) :=
  (c6_bad_request_and_generic_fallback baseClient "get" none none r400err rfl
    (by decide) (Or.inl rfl) rfl).1 rfl

/-- C7 (counterexample): the claim says caller keys outside the defaults
are preserved by the merge; with a configured token, a caller-supplied
`Authorization` header is overwritten by the injected credential. -/
theorem c7_counterexample_caller_authorization_overridden :
    dictGet (tokClient.effectiveHeaders
        (some [("Authorization", "Bearer x")])) "Authorization" = some "Token tok" ∧
      some "Token tok" ≠ some "Bearer x" := by
  refine ⟨rfl, ?_⟩
  simp

/-- C7 (amended): the effective headers are the caller headers merged over
the default `Content-Type: application/json` on every key except
`Authorization` (which the token injection may overwrite): `Content-Type`
is always present — the caller's value if supplied, the default otherwise —
and every other non-`Authorization` caller key keeps its caller value,
while keys the caller omits stay absent. -/
theorem c7_header_merge_defaults (url tok : String) (am : AuthorizationMethod)
    (tmo : Rat) (hdrs : List (String × String))
    (hnd : (hdrs.map Prod.fst).Nodup) :
    dictGet ((HttpClient.init url tok am tmo).effectiveHeaders (some hdrs))
        "Content-Type" =
      some ((dictGet hdrs "Content-Type").getD "application/json") ∧
    (∀ k, k ≠ "Content-Type" → k ≠ "Authorization" →
      dictGet ((HttpClient.init url tok am tmo).effectiveHeaders (some hdrs)) k =
        dictGet hdrs k) := by
  have hno : ∀ k, k ≠ "Authorization" →
      dictGet ((HttpClient.init url tok am tmo).effectiveHeaders (some hdrs)) k =
        dictGet ((HttpClient.init url tok am tmo).mergedHeaders (some hdrs)) k := by
    intro k hk
    simp only [HttpClient.effectiveHeaders]
    by_cases htk : pyStrip (HttpClient.init url tok am tmo).token ≠ ""
    · rw [if_pos htk, dictGet_dictSet_ne _ _ _ _ hk]
    · rw [if_neg htk]
  have hmerge : (HttpClient.init url tok am tmo).mergedHeaders (some hdrs) =
      dictMerge [("Content-Type", "application/json")] hdrs := rfl
  constructor
  · rw [hno _ (by decide), hmerge]
    cases hh : dictGet hdrs "Content-Type" with
    | some v => rw [dictGet_dictMerge_some _ _ _ _ hnd hh]; rfl
    | none => rw [dictGet_dictMerge_none _ _ _ hh]; rfl
  · intro k hkct hkauth
    rw [hno _ hkauth, hmerge]
    cases hh : dictGet hdrs k with
    | some v => rw [dictGet_dictMerge_some _ _ _ _ hnd hh]
    | none =>
      rw [dictGet_dictMerge_none _ _ _ hh]
      simp only [dictGet]
      rw [if_neg (Ne.symm hkct)]

/-- Witness for the amended C7 theorem: a caller header `X-Custom: 1` is
preserved in the effective headers. -/
theorem c7_header_merge_defaults_witness :
    dictGet ((HttpClient.init "u" "tok" AuthorizationMethod.jwt 10).effectiveHeaders
        (some [("X-Custom", "1")])) "X-Custom" =
      dictGet [("X-Custom", "1")] "X-Custom" :=
  (c7_header_merge_defaults "u" "tok" AuthorizationMethod.jwt 10 [("X-Custom", "1")]
      (by simp)).2 "X-Custom" (by decide) (by decide)

/-- C10: for a non-2xx response carrying `X-Ratelimit-Limit` but missing at
least one of the other three rate-limit headers, `request` ends in a raw
Python `KeyError` from the header lookup (the lookups run outside the
`try` block), not in any error of the documented taxonomy; the header
values are handled as raw strings throughout. -/
theorem c10_missing_ratelimit_header_keyerror (c : HttpClient) (m : String)
    (hdrs : Option (List (String × String))) (tmo : Option Rat) (r : Response)
    (l : String)
    (hm : supportedMethod m = true)
    (hstatus : ¬(200 ≤ r.status ∧ r.status ≤ 299))
    (hlim : dictGet r.headers "X-Ratelimit-Limit" = some l)
    (hmiss : dictGet r.headers "X-Ratelimit-Remaining" = none ∨
             dictGet r.headers "X-Ratelimit-Reset" = none ∨
             dictGet r.headers "X-Ratelimit-Retry" = none) :
    (c.request m hdrs tmo (constTransport r)).2 =
        RequestOutcome.pyKeyError "X-Ratelimit-Remaining" ∨
      (c.request m hdrs tmo (constTransport r)).2 =
        RequestOutcome.pyKeyError "X-Ratelimit-Reset" ∨
      (c.request m hdrs tmo (constTransport r)).2 =
        RequestOutcome.pyKeyError "X-Ratelimit-Retry" := by
  rw [request_response_eq c m hdrs tmo r hm]
  cases hrem : dictGet r.headers "X-Ratelimit-Remaining" with
  | none =>
    left
    show classifyResponse r = _
    unfold classifyResponse
    rw [if_neg hstatus, hlim, hrem]
  | some rem =>
    cases hres : dictGet r.headers "X-Ratelimit-Reset" with
    | none =>
      right; left
      show classifyResponse r = _
      unfold classifyResponse
      rw [if_neg hstatus, hlim, hrem, hres]
    | some res =>
      cases hret : dictGet r.headers "X-Ratelimit-Retry" with
      | none =>
        right; right
        show classifyResponse r = _
        unfold classifyResponse
        rw [if_neg hstatus, hlim, hrem, hres, hret]
      | some ret =>
        exfalso
        rcases hmiss with h | h | h
        · rw [hrem] at h; exact Option.noConfusion h
        · rw [hres] at h; exact Option.noConfusion h
        · rw [hret] at h; exact Option.noConfusion h

/-- Witness for the C10 theorem: a 500 response with only
`X-Ratelimit-Limit` set ends in the `KeyError` for
`X-Ratelimit-Remaining`. -/
theorem c10_missing_ratelimit_header_keyerror_witness :
    (baseClient.request "get" none none (constTransport r500limitOnly)).2 =
        RequestOutcome.pyKeyError "X-Ratelimit-Remaining" ∨
      (baseClient.request "get" none none (constTransport r500limitOnly)).2 =
        RequestOutcome.pyKeyError "X-Ratelimit-Reset" ∨
      (baseClient.request "get" none none (constTransport r500limitOnly)).2 =
        RequestOutcome.pyKeyError "X-Ratelimit-Retry" :=
  c10_missing_ratelimit_header_keyerror baseClient "get" none none r500limitOnly "100"
    rfl (by decide) rfl (Or.inl rfl)

end PapersWithCode
